import Mathlib

/-!
Shallow embedding of the BerlinEventMap multi-source event pipeline
(RA_event_fetcher.py, scrapeVisitBerlin.py, scrapeTipBerlinBot.py,
scrapeGratisInBerlinParallel.py, combineMapsLegend.py), with theorems
settling the specification claims about geocoding caching and fallback,
pagination, partial-failure tolerance, artifact invariants and the merge
stage.

Modelling conventions: geopy locations are opaque pairs of integers
(the code never computes on coordinates); the external geocoder is a
function `String → Option Location` (`none` models both a miss and a
raised/caught geocoder exception); Python `None` becomes `Option.none`;
Python string truthiness (`if s:`) is `s ≠ ""`.
-/

/-- Stand-in for a geopy location: the code only ever reads
`location.latitude` and `location.longitude` and passes them through. -/
structure Location where
  latitude : Int
  longitude : Int
deriving DecidableEq, Repr

/-- The external geocoding service (`Nominatim.geocode`, possibly wrapped in
a `RateLimiter`): a free-text query resolves to a location or to nothing.
`none` covers both an empty result and a caught geocoder exception. -/
def Geocoder : Type := String → Option Location

/-- Python truthiness of an optional string: `None` and `""` are falsy. -/
def pyTruthyOpt : Option String → Bool
  | none => false
  | some s => s != ""

/-- Python `s.split(sep)[0]`: the text before the first occurrence of the
separator character (the whole string when the separator is absent).
Implemented structurally on the character list so that proofs can
evaluate it. -/
def py_split_head (s : String) (sep : Char) : String :=
  String.mk (s.data.takeWhile (fun ch => ch != sep))

/-- Python `s.strip()`: remove leading and trailing whitespace. -/
def py_strip (s : String) : String :=
  String.mk (((s.data.dropWhile Char.isWhitespace).reverse.dropWhile
    Char.isWhitespace).reverse)

/-- Python `sep in s` for a single-character separator. -/
def py_contains (s : String) (sep : Char) : Bool :=
  s.data.contains sep

/-- Python `s[:n]`. -/
def py_take (s : String) (n : Nat) : String :=
  String.mk (s.data.take n)

/-- Python `s.startswith(c)` for a single-character argument. -/
def py_starts_with (s : String) (c : Char) : Bool :=
  match s.data with
  | [] => false
  | a :: _ => a == c

/-! ## RA adapter: `EventFetcher` (RA_event_fetcher.py) -/

/-- The run-scoped venue cache `EventFetcher._venues_cache`:
maps `f"{venue_name}|{venue_address or ''}"` keys to the geocoding outcome
(the code stores `(lat, lon)` or `(None, None)`, i.e. both-or-neither). -/
def RACache : Type := List (String × Option Location)

/-- Cache key built in `EventFetcher._geocode_venue`:
`f"{venue_name}|{venue_address or ''}"`. -/
def ra_cache_key (venue_name : String) (venue_address : Option String) : String :=
  venue_name ++ "|" ++ venue_address.getD ""

/-- Query string built in `EventFetcher._geocode_venue`: the address is
included only when truthy (non-`None`, non-empty). -/
def ra_query (venue_name : String) (venue_address : Option String) : String :=
  match venue_address with
  | some a =>
    if a = "" then venue_name ++ ", Berlin, Germany"
    else venue_name ++ ", " ++ a ++ ", Berlin, Germany"
  | none => venue_name ++ ", Berlin, Germany"

/-- Embeds `EventFetcher._geocode_venue`: check the cache first (no external
call on a hit), otherwise issue one external call and store the result —
also when the result is absent. Returns (result, new cache, number of
external geocoding calls issued). -/
def geocode_venue (resolve : Geocoder) (cache : RACache)
    (venue_name : String) (venue_address : Option String) :
    Option Location × RACache × Nat :=
  let cache_key := ra_cache_key venue_name venue_address
  match cache.lookup cache_key with
  | some result => (result, cache, 0)
  | none =>
    let result := resolve (ra_query venue_name venue_address)
    (result, (cache_key, result) :: cache, 1)

/-- A sequence of `_geocode_venue` calls sharing one run-scoped cache,
returning the per-call results, the final cache and the total number of
external calls. -/
def geocode_sequence (resolve : Geocoder) :
    RACache → List (String × Option String) →
    List (Option Location) × RACache × Nat
  | cache, [] => ([], cache, 0)
  | cache, (n, a) :: rest =>
    let step := geocode_venue resolve cache n a
    let restRun := geocode_sequence resolve step.2.1 rest
    (step.1 :: restRun.1, restRun.2.1, step.2.2 + restRun.2.2)

/-! ## Gratis adapter geocoding (scrapeGratisInBerlinParallel.py) -/

/-- Embeds `GratisBerlinScraper.geocode_address`: a bare call to the
external geocoder with the raw address — there is no cache. The second
component counts external calls (always 1 per invocation). -/
def gratis_geocode_address (resolve : Geocoder) (address : String) :
    Option Location × Nat :=
  (resolve address, 1)

/-- Embeds the geocoding loop of `run_gratis_berlin_scraper`: one
`geocode_address` call per row, returning the coordinate column and the
total number of external calls issued. -/
def run_gratis_geocode (resolve : Geocoder) :
    List String → List (Option Location) × Nat
  | [] => ([], 0)
  | addr :: rest =>
    let step := gratis_geocode_address resolve addr
    let restRun := run_gratis_geocode resolve rest
    (step.1 :: restRun.1, step.2 + restRun.2)

/-! ### Cache lemmas for the RA venue cache -/

/-- After a `_geocode_venue` call, the call's own key is present in the
cache and maps to the returned result. -/
theorem geocode_venue_lookup_self (resolve : Geocoder) (cache : RACache)
    (n : String) (a : Option String) :
    ((geocode_venue resolve cache n a).2.1).lookup (ra_cache_key n a) =
      some (geocode_venue resolve cache n a).1 := by
  unfold geocode_venue
  cases h : cache.lookup (ra_cache_key n a) with
  | some r => simp [h]
  | none => simp [h, List.lookup]

/-- A `_geocode_venue` call never removes or overwrites an existing cache
entry (the store happens only on a miss). -/
theorem geocode_venue_preserves (resolve : Geocoder) (cache : RACache)
    (n : String) (a : Option String) (k : String) (v : Option Location)
    (hk : cache.lookup k = some v) :
    ((geocode_venue resolve cache n a).2.1).lookup k = some v := by
  unfold geocode_venue
  cases h : cache.lookup (ra_cache_key n a) with
  | some r => simpa [h]
  | none =>
    simp only [h, List.lookup]
    have hne : (k == ra_cache_key n a) = false := by
      cases hbe : k == ra_cache_key n a with
      | false => rfl
      | true =>
        have : k = ra_cache_key n a := eq_of_beq hbe
        rw [this] at hk
        rw [hk] at h
        cases h
    simp [hne, hk]

/-- A whole sequence of later `_geocode_venue` calls preserves every
existing cache entry. -/
theorem geocode_sequence_preserves (resolve : Geocoder)
    (others : List (String × Option String)) (cache : RACache)
    (k : String) (v : Option Location) (hk : cache.lookup k = some v) :
    ((geocode_sequence resolve cache others).2.1).lookup k = some v := by
  induction others generalizing cache with
  | nil => simpa [geocode_sequence]
  | cons p rest ih =>
    simp only [geocode_sequence]
    exact ih _ (geocode_venue_preserves resolve cache p.1 p.2 k v hk)

/-- On a cache hit, `_geocode_venue` returns the cached result, leaves the
cache unchanged, and issues no external call. -/
theorem geocode_venue_hit (resolve : Geocoder) (cache : RACache)
    (n : String) (a : Option String) (v : Option Location)
    (h : cache.lookup (ra_cache_key n a) = some v) :
    geocode_venue resolve cache n a = (v, cache, 0) := by
  unfold geocode_venue
  simp [h]

/-- C9: in the RA adapter a geocoding failure is cached like a success:
whatever `_geocode_venue` first returned for a key (including an absent
result), any later resolution of the same key within the run — with
arbitrary other venue resolutions in between — returns that same result
from the cache, leaves the cache unchanged, and issues no further external
geocoding call. -/
theorem ra_geocode_failure_cached (resolve : Geocoder) (cache : RACache)
    (n : String) (a : Option String) (others : List (String × Option String)) :
    geocode_venue resolve
        ((geocode_sequence resolve ((geocode_venue resolve cache n a).2.1) others).2.1) n a
      = ((geocode_venue resolve cache n a).1,
         (geocode_sequence resolve ((geocode_venue resolve cache n a).2.1) others).2.1,
         0) :=
  geocode_venue_hit resolve _ n a _
    (geocode_sequence_preserves resolve others _ _ _
      (geocode_venue_lookup_self resolve cache n a))

/-- C2 (amended): in the RA adapter, whose resolver is cached per
`venue|address` key, a three-record input with venue keys A, B, A issues
exactly two external geocoding calls and both A records receive the
identical (first-resolution) result; the Gratis adapter's
`geocode_address` has no cache and issues exactly one external call per
invocation, so a repeated address there is re-resolved. -/
theorem geocode_cache_policy (resolve : Geocoder)
    (n1 n2 : String) (a1 a2 : Option String)
    (h : ra_cache_key n1 a1 ≠ ra_cache_key n2 a2) :
    (geocode_sequence resolve [] [(n1, a1), (n2, a2), (n1, a1)]).2.2 = 2
    ∧ (geocode_sequence resolve [] [(n1, a1), (n2, a2), (n1, a1)]).1 =
        [resolve (ra_query n1 a1), resolve (ra_query n2 a2), resolve (ra_query n1 a1)]
    ∧ (∀ addr, (gratis_geocode_address resolve addr).2 = 1) := by
  have hne : (ra_cache_key n2 a2 == ra_cache_key n1 a1) = false :=
    beq_eq_false_iff_ne.mpr (Ne.symm h)
  have hne' : (ra_cache_key n1 a1 == ra_cache_key n2 a2) = false :=
    beq_eq_false_iff_ne.mpr h
  refine ⟨?_, ?_, fun addr => rfl⟩ <;>
    simp [geocode_sequence, geocode_venue, List.lookup, hne, hne']

/-- Witness for C2 (amended) at venues "Club A", "Club B", "Club A". -/
theorem geocode_cache_policy_witness :
    (geocode_sequence (fun _ => some ⟨52, 13⟩) []
        [("Club A", none), ("Club B", none), ("Club A", none)]).2.2 = 2
    ∧ (geocode_sequence (fun _ => some ⟨52, 13⟩) []
        [("Club A", none), ("Club B", none), ("Club A", none)]).1 =
        [(fun _ => some (⟨52, 13⟩ : Location)) (ra_query "Club A" none),
         (fun _ => some (⟨52, 13⟩ : Location)) (ra_query "Club B" none),
         (fun _ => some (⟨52, 13⟩ : Location)) (ra_query "Club A" none)]
    ∧ (∀ addr, (gratis_geocode_address (fun _ => some ⟨52, 13⟩) addr).2 = 1) :=
  geocode_cache_policy (fun _ => some ⟨52, 13⟩) "Club A" "Club B" none none
    (by decide)

/-- C2 (counterexample): the Gratis adapter has no geocode cache, so the
three-record input with addresses "Club A", "Club B", "Club A" invokes the
external resolver three times, not twice as the claim states. -/
theorem gratis_duplicate_address_three_calls :
    (run_gratis_geocode (fun _ => some ⟨52, 13⟩) ["Club A", "Club B", "Club A"]).2 = 3
    ∧ (3 : Nat) ≠ 2 := by
  exact ⟨rfl, by decide⟩

/-! ## RA adapter: pagination (`EventFetcher.get_events` / `fetch_all_events`) -/

/-- Shape of a parsed JSON response body in `EventFetcher.get_events`:
either the "data" envelope is missing (handled: logged and treated as an
empty page), or "data" is present but the inner
`["eventListings"]["data"]` path is not (an uncaught `KeyError`), or the
listings array is reachable. The listing payload is opaque. -/
inductive RABody (α : Type) where
  | noData
  | dataMalformed
  | dataOk (events : List α)
deriving DecidableEq, Repr

/-- Outcome of `requests.post` + `response.json()` for one page, as
distinguished by the `except` clauses of `EventFetcher.get_events`. -/
inductive ApiResponse (α : Type) where
  | timeout
  | requestError (msg : String)
  | badJson
  | json (body : RABody α)
deriving DecidableEq, Repr

/-- Embeds `EventFetcher.get_events`: timeouts, request errors, non-JSON
bodies and a missing "data" envelope are caught and yield an empty page;
a body whose "data" envelope is present but lacks the
`eventListings.data` path raises an uncaught `KeyError`, modelled as
`Except.error`. -/
def get_events {α : Type} : ApiResponse α → Except Unit (List α)
  | .timeout => .ok []
  | .requestError _ => .ok []
  | .badJson => .ok []
  | .json .noData => .ok []
  | .json .dataMalformed => .error ()
  | .json (.dataOk events) => .ok events

/-- Embeds `EventFetcher.fetch_all_events`: request pages in order,
stopping at the first empty page, accumulating listings; an uncaught
exception from `get_events` propagates and loses the accumulated events
(the caller in `main` turns it into a failed run). The response stream is
given as a list of per-page responses; exhausting the list ends the loop
with the accumulated events (the theorems below always include an
explicit terminating page, so this case is never exercised). -/
def fetch_all_events {α : Type} :
    List (ApiResponse α) → List α → Except Unit (List α)
  | [], all_events => .ok all_events
  | r :: rest, all_events =>
    match get_events r with
    | .error e => .error e
    | .ok events =>
      if events.isEmpty then .ok all_events
      else fetch_all_events rest (all_events ++ events)

/-- Accumulator form of the pagination result over well-formed non-empty
pages followed by a terminating page yielding an empty page result. -/
theorem fetch_all_events_ok_aux {α : Type} (term : ApiResponse α)
    (hterm : get_events term = .ok []) (rest : List (ApiResponse α)) :
    ∀ (front : List (ApiResponse α)) (pages : List (List α)) (acc : List α),
      front.map get_events = pages.map Except.ok →
      (∀ p ∈ pages, p ≠ []) →
      fetch_all_events (front ++ term :: rest) acc = .ok (acc ++ pages.flatten) := by
  intro front
  induction front with
  | nil =>
    intro pages acc hfp _
    have hpages : pages = [] := by
      cases pages with
      | nil => rfl
      | cons p ps => simp at hfp
    subst hpages
    simp [fetch_all_events, hterm]
  | cons r front ih =>
    intro pages acc hfp hne
    cases pages with
    | nil => simp at hfp
    | cons p ps =>
      simp only [List.map_cons, List.cons.injEq] at hfp
      have hr : get_events r = .ok p := hfp.1
      have hpne : p ≠ [] := hne p (List.mem_cons_self p ps)
      have hpe : p.isEmpty = false := by
        cases p with
        | nil => exact absurd rfl hpne
        | cons x xs => rfl
      simp only [List.cons_append, fetch_all_events, hr, hpe, Bool.false_eq_true,
        if_false, List.append_eq]
      rw [ih ps (acc ++ p) hfp.2 (fun q hq => hne q (List.mem_cons_of_mem p hq))]
      simp [List.flatten]

/-- Accumulator form of the abort behaviour: an uncaught page error makes
the whole fetch fail, losing the accumulated events. -/
theorem fetch_all_events_err_aux {α : Type} (term : ApiResponse α)
    (hterm : get_events term = .error ()) (rest : List (ApiResponse α)) :
    ∀ (front : List (ApiResponse α)) (pages : List (List α)) (acc : List α),
      front.map get_events = pages.map Except.ok →
      (∀ p ∈ pages, p ≠ []) →
      fetch_all_events (front ++ term :: rest) acc = .error () := by
  intro front
  induction front with
  | nil =>
    intro pages acc _ _
    simp [fetch_all_events, hterm]
  | cons r front ih =>
    intro pages acc hfp hne
    cases pages with
    | nil => simp at hfp
    | cons p ps =>
      simp only [List.map_cons, List.cons.injEq] at hfp
      have hr : get_events r = .ok p := hfp.1
      have hpne : p ≠ [] := hne p (List.mem_cons_self p ps)
      have hpe : p.isEmpty = false := by
        cases p with
        | nil => exact absurd rfl hpne
        | cons x xs => rfl
      simp only [List.cons_append, fetch_all_events, hr, hpe, Bool.false_eq_true,
        if_false, List.append_eq]
      exact ih ps (acc ++ p) hfp.2 (fun q hq => hne q (List.mem_cons_of_mem p hq))

/-- C5 (amended): fed N responses whose pages are non-empty and then a
terminating page, the RA adapter accumulates exactly those N pages'
records and stops — where a terminating page is an empty page, an HTTP
error, a timeout, a non-JSON body or a missing "data" envelope (all
yield an empty page result). But a response whose "data" envelope is
present while the inner `eventListings.data` path is missing raises an
uncaught error that aborts the whole fetch and loses the accumulated
records instead of returning them. -/
theorem ra_pagination_termination {α : Type}
    (front : List (ApiResponse α)) (pages : List (List α))
    (term : ApiResponse α) (rest : List (ApiResponse α))
    (hfp : front.map get_events = pages.map Except.ok)
    (hne : ∀ p ∈ pages, p ≠ []) :
    (get_events term = .ok [] →
      fetch_all_events (front ++ term :: rest) [] = .ok pages.flatten)
    ∧ (get_events term = .error () →
      fetch_all_events (front ++ term :: rest) [] = .error ()) := by
  constructor
  · intro hterm
    have h := fetch_all_events_ok_aux term hterm rest front pages [] hfp hne
    simpa using h
  · intro hterm
    exact fetch_all_events_err_aux term hterm rest front pages [] hfp hne

/-- Witness for C5 (amended): two non-empty pages then an empty page yield
exactly the two pages' records. -/
theorem ra_pagination_termination_witness :
    fetch_all_events
        [ApiResponse.json (RABody.dataOk [1, 2]), ApiResponse.json (RABody.dataOk [3]),
         ApiResponse.json (RABody.noData (α := Nat))] [] = .ok [1, 2, 3] := by
  have h := (ra_pagination_termination
    [ApiResponse.json (RABody.dataOk [1, 2]), ApiResponse.json (RABody.dataOk [3])]
    [[1, 2], [3]]
    (ApiResponse.json (RABody.noData (α := Nat))) []
    rfl (by decide)).1 rfl
  simpa using h

/-- C5 (counterexample): a page whose JSON body has the "data" envelope but
not the inner `eventListings.data` path — an invalid payload shape — does
not stop pagination with the accumulated records: the uncaught `KeyError`
aborts the fetch and the one already-accumulated record is lost, contrary
to the claim. -/
theorem ra_malformed_envelope_aborts_run :
    fetch_all_events
        [ApiResponse.json (RABody.dataOk [(1 : Nat)]), ApiResponse.json RABody.dataMalformed]
        [] = .error ()
    ∧ fetch_all_events
        [ApiResponse.json (RABody.dataOk [(1 : Nat)]), ApiResponse.json RABody.dataMalformed]
        [] ≠ .ok [1] := by
  refine ⟨rfl, ?_⟩
  intro h
  rw [show fetch_all_events
        [ApiResponse.json (RABody.dataOk [(1 : Nat)]), ApiResponse.json RABody.dataMalformed]
        [] = .error () from rfl] at h
  cases h

/-! ## RA adapter: CSV artifact (`EventFetcher.save_events_to_csv`) -/

/-- Venue data of an RA event: `venue["name"]` and the optional
`venue.get("address", "")` (none models a missing key). -/
structure RAVenue where
  name : String
  address : Option String
deriving DecidableEq, Repr

/-- The fields of `event["event"]` read by `save_events_to_csv`. -/
structure RAEventData where
  title : String
  date : String
  startTime : String
  endTime : String
  artists : List String
  venue : RAVenue
  contentUrl : String
  attending : Int
deriving DecidableEq, Repr

/-- Embeds the pre-geocoding loop of `save_events_to_csv`: for each unique
(venue name, venue address) pair not yet in the cache, one
`_geocode_venue` call. -/
def pre_geocode (resolve : Geocoder) : RACache → List (String × String) → RACache
  | cache, [] => cache
  | cache, (n, a) :: rest =>
    if (cache.lookup (ra_cache_key n (some a))).isSome then
      pre_geocode resolve cache rest
    else
      pre_geocode resolve ((geocode_venue resolve cache n (some a)).2.1) rest

/-- One row of the RA events CSV as written by `save_events_to_csv`
(all cells are strings in the file). -/
structure RACsvRow where
  eventName : String
  date : String
  startTime : String
  endTime : String
  artists : String
  venue : String
  venueAddress : String
  latCell : String
  lonCell : String
  eventUrl : String
  attending : String
deriving DecidableEq, Repr

/-- Embeds the `writer.writerow` body of `save_events_to_csv`: the cached
geocode result is looked up with default `(None, None)`, and a missing
coordinate is written as the empty string — the row itself is always
written. -/
def ra_csv_row (cache : RACache) (e : RAEventData) : RACsvRow :=
  let venue_name := e.venue.name
  let venue_address := e.venue.address.getD ""
  let coords := (cache.lookup (ra_cache_key venue_name (some venue_address))).getD none
  { eventName := e.title
    date := e.date
    startTime := e.startTime
    endTime := e.endTime
    artists := String.intercalate ", " e.artists
    venue := venue_name
    venueAddress := venue_address
    latCell := match coords with | some loc => toString loc.latitude | none => ""
    lonCell := match coords with | some loc => toString loc.longitude | none => ""
    eventUrl := e.contentUrl
    attending := toString e.attending }

/-- Embeds `EventFetcher.save_events_to_csv`: with no events, no file is
written (`none`); otherwise the unique venues are pre-geocoded into the
run cache and one CSV row is written per input event. Python's set of
unique venues has no specified iteration order; it is modelled by
`List.dedup`, which is sound because the cache is write-once per key. -/
def save_events_to_csv (resolve : Geocoder) (cache : RACache)
    (events : List RAEventData) : Option (List RACsvRow) :=
  if events.isEmpty then none
  else
    let unique_venues := (events.map (fun e => (e.venue.name, e.venue.address.getD ""))).dedup
    let cache2 := pre_geocode resolve cache unique_venues
    some (events.map (ra_csv_row cache2))

/-- C1 (counterexample): in the RA adapter, an event whose geocoding
yielded no result is still written to the artifact — with empty-string
latitude and longitude cells — rather than being excluded, contrary to
the claim that such records are absent from the artifact. -/
theorem ra_csv_writes_row_with_empty_coordinates :
    ∃ rows,
      save_events_to_csv (fun _ => none) []
          [{ title := "Night", date := "2025-01-01", startTime := "23:00",
             endTime := "06:00", artists := [],
             venue := { name := "Nowhere Club", address := none },
             contentUrl := "/events/1", attending := 0 }] = some rows
      ∧ rows.length = 1
      ∧ ∀ r ∈ rows, r.latCell = "" ∧ r.lonCell = "" := by
  refine ⟨[{ eventName := "Night", date := "2025-01-01", startTime := "23:00",
             endTime := "06:00", artists := "", venue := "Nowhere Club",
             venueAddress := "", latCell := "", lonCell := "",
             eventUrl := "/events/1", attending := "0" }], by decide, rfl, ?_⟩
  intro r hr
  rw [List.mem_singleton] at hr
  subst hr
  exact ⟨rfl, rfl⟩

/-! ## VisitBerlin adapter (scrapeVisitBerlin.py) -/

/-- The `teaser-search__location` paragraph of an article: an optional
`nopr` span and an optional `me__content` span (each with its stripped
text when present). -/
structure VBLocTag where
  nopr : Option String
  content : Option String
deriving DecidableEq, Repr

/-- The pieces of one `article.teaser-search--event` element that
`VisitBerlinScraper._parse_article` reads. An outer `Option` is the
presence of the tag; a nested `Option` is the presence of the inner
tag or attribute. -/
structure VBArticle where
  heading : Option String
  timeTag : Option String
  timeRange : Option (Option String)
  locTag : Option VBLocTag
  descTag : Option (Option String)
  mainlink : Option (Option String)
deriving DecidableEq, Repr

/-- The `VisitBerlinEvent` dataclass. -/
structure VisitBerlinEvent where
  title : String
  date : String
  time : String
  address : String
  description : String
  url : String
deriving DecidableEq, Repr

/-- Embeds `VisitBerlinScraper._parse_article`: every missing tag falls
back to the placeholder "N/A" (description to ""); the article is always
turned into an event, never dropped. -/
def parse_article (article : VBArticle) : VisitBerlinEvent :=
  let title := article.heading.getD "N/A"
  let date := article.timeTag.getD "N/A"
  let time_str := match article.timeRange with
    | none => "N/A"
    | some content => content.getD "N/A"
  let address := match article.locTag with
    | none => "N/A"
    | some loc =>
      match loc.nopr with
      | some t => t
      | none => loc.content.getD "N/A"
  let description := match article.descTag with
    | some (some t) => py_take t 500
    | _ => ""
  let url := match article.mainlink with
    | some (some link) =>
      if link != "" then
        if py_starts_with link '/' then "https://www.visitberlin.de" ++ link else link
      else "N/A"
    | _ => "N/A"
  { title := title, date := date, time := time_str, address := address,
    description := description, url := url }

/-- Embeds the parsing loop of `VisitBerlinScraper.scrape_events`: every
found article is parsed and appended. -/
def visit_scrape_events (articles : List VBArticle) : List VisitBerlinEvent :=
  articles.map parse_article

/-- Query composition used by `VisitBerlinScraper.geocode_address`. -/
def vb_query (s : String) : String := s ++ ", Berlin, Germany"

/-- One iteration of the separator-fallback loop in
`VisitBerlinScraper.geocode_address`: if the separator occurs in the
address, geocode the part before its first occurrence (stripped),
provided that truncation changed the string. -/
def vb_try_sep (resolve : Geocoder) (address : String) (sep : Char) : Option Location :=
  if py_contains address sep then
    let main_part := py_strip (py_split_head address sep)
    if main_part ≠ address then resolve (vb_query main_part) else none
  else none

/-- Embeds `VisitBerlinScraper.geocode_address`: try the full address,
then the truncations at "-", "–" and ":" in that fixed order, then the
truncation at "/" (which skips the changed-string check), giving up only
after all of them fail. -/
def vb_geocode_address (resolve : Geocoder) (address : String) : Option Location :=
  match resolve (vb_query address) with
  | some loc => some loc
  | none =>
    match vb_try_sep resolve address '-' with
    | some loc => some loc
    | none =>
      match vb_try_sep resolve address '–' with
      | some loc => some loc
      | none =>
        match vb_try_sep resolve address ':' with
        | some loc => some loc
        | none =>
          if py_contains address '/' then
            resolve (vb_query (py_strip (py_split_head address '/')))
          else none

/-- One row of the visitberlin DataFrame after the geocoding loop of
`run_visitberlin_scraper` (lat/lon columns are NaN when geocoding
failed). -/
structure VBRow where
  title : String
  date : String
  time : String
  address : String
  description : String
  url : String
  lat : Option Int
  lon : Option Int
deriving DecidableEq, Repr

/-- Embeds `run_visitberlin_scraper`: parse all articles, geocode each
row's address, then keep only the rows where both `lat` and `lon` are
present (`df.dropna(subset=["lat", "lon"])`) — that filtered frame is
what is written to the CSV artifact. -/
def run_visitberlin_scraper (resolve : Geocoder) (articles : List VBArticle) :
    List VBRow :=
  let events := visit_scrape_events articles
  let rows := events.map (fun e =>
    let g := vb_geocode_address resolve e.address
    { title := e.title, date := e.date, time := e.time, address := e.address,
      description := e.description, url := e.url,
      lat := g.map (·.latitude), lon := g.map (·.longitude) : VBRow })
  rows.filter (fun r => r.lat.isSome && r.lon.isSome)

/-! ## VisitBerlin geocoding fallback: claim C6 -/

/-- Formalisation of the claim's own fallback wording — "a truncated query
formed by cutting the string at the first separator character among
{-, –, :, /}" — written from the spec sentence, to be compared against
the code's behaviour: everything before the first occurrence of any of
the four separator characters, stripped. -/
def spec_first_separator_cut (address : String) : String :=
  py_strip (String.mk (address.data.takeWhile
    (fun c => !(c == '-' || c == '–' || c == ':' || c == '/'))))

/-- Concrete resolver for the C6 counterexample: it knows the
"-"-truncation "a:b" and the ":"-truncation "a" of the address "a:b-c",
with different coordinates, and fails on everything else. -/
def vb_priority_resolver : Geocoder := fun q =>
  if q = vb_query "a:b" then some ⟨1, 1⟩
  else if q = vb_query "a" then some ⟨2, 2⟩
  else none

/-- C6 (counterexample): for the address "a:b-c" the first separator
character in the string is the ":" at index 1, so the claim's truncated
query is "a", whose resolution yields (2, 2); but the code tries the
separators in the fixed order "-", "–", ":", "/" and returns the result
for "a:b" — (1, 1) — instead. -/
theorem vb_fallback_priority_counterexample :
    vb_geocode_address vb_priority_resolver "a:b-c" = some ⟨1, 1⟩
    ∧ vb_priority_resolver (vb_query "a:b-c") = none
    ∧ spec_first_separator_cut "a:b-c" = "a"
    ∧ vb_priority_resolver (vb_query (spec_first_separator_cut "a:b-c")) = some ⟨2, 2⟩
    ∧ some (⟨1, 1⟩ : Location) ≠ some (⟨2, 2⟩ : Location) := by
  decide

/-- The candidate queries attempted by `geocode_address`, in order: the
full address, then the truncation at the first occurrence of "-", "–"
and ":" in that fixed order (each only when the separator occurs and the
truncation changes the string), then the truncation at "/" (attempted
whenever "/" occurs). -/
def vb_sep_queries (address : String) (sep : Char) : List String :=
  if py_contains address sep then
    if py_strip (py_split_head address sep) ≠ address then
      [vb_query (py_strip (py_split_head address sep))]
    else []
  else []

/-- All fallback candidate queries of `geocode_address` for an address. -/
def vb_fallback_queries (address : String) : List String :=
  vb_query address ::
    (vb_sep_queries address '-' ++ vb_sep_queries address '–' ++
      vb_sep_queries address ':' ++
      (if py_contains address '/' then
        [vb_query (py_strip (py_split_head address '/'))]
      else []))

/-- Resolve a list of candidate queries in order, returning the first
success. -/
def first_success (resolve : Geocoder) : List String → Option Location
  | [] => none
  | q :: qs =>
    match resolve q with
    | some loc => some loc
    | none => first_success resolve qs

/-- Scanning one separator's candidate segment is exactly the
`vb_try_sep` step. -/
theorem first_success_sep (resolve : Geocoder) (address : String) (sep : Char)
    (qs : List String) :
    first_success resolve (vb_sep_queries address sep ++ qs) =
      match vb_try_sep resolve address sep with
      | some loc => some loc
      | none => first_success resolve qs := by
  unfold vb_sep_queries vb_try_sep
  by_cases h1 : py_contains address sep = true
  · simp only [h1, if_true]
    by_cases h2 : py_strip (py_split_head address sep) ≠ address
    · simp only [if_pos h2, List.singleton_append, first_success]
    · simp only [if_neg h2]
      simp [first_success]
  · simp [h1, first_success]

/-- C6 (amended): `geocode_address` resolves the candidate queries of
`vb_fallback_queries` in their listed order — full address first, then the
cuts at "-", "–", ":" and "/" by separator priority, not by the position
of the first separator character — returning the first success and absent
only after all candidates fail. In particular the claim's own instance
holds: when the full string "Hauptstraße 10 - Keller, Berlin" fails and
"Hauptstraße 10" succeeds, the truncated result is returned. -/
theorem vb_fallback_order (resolve : Geocoder) (address : String) :
    vb_geocode_address resolve address =
      first_success resolve (vb_fallback_queries address)
    ∧ (∀ loc : Location,
        resolve (vb_query "Hauptstraße 10 - Keller, Berlin") = none →
        resolve (vb_query "Hauptstraße 10") = some loc →
        vb_geocode_address resolve "Hauptstraße 10 - Keller, Berlin" = some loc) := by
  have main : ∀ addr : String,
      vb_geocode_address resolve addr =
        first_success resolve (vb_fallback_queries addr) := by
    intro addr
    unfold vb_geocode_address vb_fallback_queries
    cases hfull : resolve (vb_query addr) with
    | some loc => simp [first_success, hfull]
    | none =>
      simp only [first_success, hfull]
      simp only [List.append_assoc]
      rw [first_success_sep]
      cases vb_try_sep resolve addr '-' with
      | some loc => rfl
      | none =>
        rw [first_success_sep]
        cases vb_try_sep resolve addr '–' with
        | some loc => rfl
        | none =>
          rw [first_success_sep]
          cases vb_try_sep resolve addr ':' with
          | some loc => rfl
          | none =>
            by_cases hs : py_contains addr '/' = true
            · simp only [hs, if_true, first_success]
              cases resolve (vb_query (py_strip (py_split_head addr '/'))) <;> rfl
            · simp [hs, first_success]
  refine ⟨main address, ?_⟩
  intro loc h1 h2
  rw [main "Hauptstraße 10 - Keller, Berlin"]
  have hq : vb_fallback_queries "Hauptstraße 10 - Keller, Berlin" =
      [vb_query "Hauptstraße 10 - Keller, Berlin", vb_query "Hauptstraße 10"] := by
    decide
  rw [hq]
  simp [first_success, h1, h2]

/-- Witness for C6 (amended): a concrete resolver failing on the full
string and succeeding on the truncation returns the truncated result. -/
theorem vb_fallback_order_witness :
    vb_geocode_address
        (fun q => if q = vb_query "Hauptstraße 10" then some ⟨3, 4⟩ else none)
        "Hauptstraße 10 - Keller, Berlin" = some ⟨3, 4⟩ :=
  (vb_fallback_order
      (fun q => if q = vb_query "Hauptstraße 10" then some ⟨3, 4⟩ else none)
      "Hauptstraße 10 - Keller, Berlin").2 ⟨3, 4⟩ (by decide) (by decide)

/-! ## TipBerlin adapter (scrapeTipBerlinBot.py) -/

/-- The pieces of one `collections__box--event` div that
`TipBerlinScraper._parse_events_from_html` reads. `title` is the h2 text
(None when the tag is missing, possibly empty). `link` is the anchor tag:
outer `Option` is tag presence, inner `Option` is the presence of the
`href` attribute (whose absence raises a `KeyError` in the code).
`dates` are the h3 texts found in the box. -/
structure TipBox where
  title : Option String
  link : Option (Option String)
  category : Option String
  address : Option String
  venue : Option String
  dates : List String
deriving DecidableEq, Repr

/-- The `Event` dataclass of scrapeTipBerlinBot.py. -/
structure TipEvent where
  title : String
  category : Option String
  venue : Option String
  address : Option String
  date : Option String
  url : Option String
deriving DecidableEq, Repr

/-- Embeds the loop body of `TipBerlinScraper._parse_events_from_html`:
skip the box when the title is missing or empty; accessing `["href"]` on
a link tag without the attribute raises `KeyError`, caught by the loop's
`except`, skipping the box; finally the box is emitted only when the
address or the venue text is truthy. -/
def tip_parse_box (box : TipBox) : Option TipEvent :=
  match box.title with
  | none => none
  | some title =>
    if title = "" then none
    else
      match box.link with
      | some none => none
      | link =>
        let event_url : Option String :=
          match link with
          | some (some href) => some href
          | _ => none
        if pyTruthyOpt box.address || pyTruthyOpt box.venue then
          some { title := title, category := box.category, venue := box.venue,
                 address := box.address, date := box.dates.getLast?,
                 url := event_url }
        else none

/-- Embeds `TipBerlinScraper._parse_events_from_html` over the found
event boxes. -/
def tip_parse_events_from_html (boxes : List TipBox) : List TipEvent :=
  boxes.filterMap tip_parse_box

/-- Any parsed tip event comes from its box with a non-empty title, the
box's address/venue fields, and a truthy address-or-venue condition. -/
theorem tip_parse_box_some (box : TipBox) (e : TipEvent)
    (hb : tip_parse_box box = some e) :
    e.title ≠ "" ∧ e.address = box.address ∧ e.venue = box.venue
      ∧ (pyTruthyOpt e.address || pyTruthyOpt e.venue) = true := by
  obtain ⟨btitle, blink, bcat, baddr, bvenue, bdates⟩ := box
  cases btitle with
  | none => simp [tip_parse_box] at hb
  | some t =>
    by_cases ht : t = ""
    · simp [tip_parse_box, ht] at hb
    · cases blink with
      | none =>
        by_cases hcond : (pyTruthyOpt baddr || pyTruthyOpt bvenue) = true
        · simp [tip_parse_box, ht, hcond] at hb
          subst hb
          exact ⟨ht, rfl, rfl, hcond⟩
        · simp [tip_parse_box, ht, hcond] at hb
      | some o =>
        cases o with
        | none => simp [tip_parse_box, ht] at hb
        | some href =>
          by_cases hcond : (pyTruthyOpt baddr || pyTruthyOpt bvenue) = true
          · simp [tip_parse_box, ht, hcond] at hb
            subst hb
            exact ⟨ht, rfl, rfl, hcond⟩
          · simp [tip_parse_box, ht, hcond] at hb

/-- C10: the tip adapter emits a parsed event only when the box has a
non-empty title and at least one truthy (present, non-empty) address or
venue text; a box with neither truthy address nor truthy venue yields no
event. -/
theorem tip_requires_location (boxes : List TipBox) :
    (∀ e ∈ tip_parse_events_from_html boxes,
      e.title ≠ "" ∧ (pyTruthyOpt e.address || pyTruthyOpt e.venue) = true)
    ∧ (∀ b : TipBox, pyTruthyOpt b.address = false → pyTruthyOpt b.venue = false →
        tip_parse_box b = none) := by
  constructor
  · intro e he
    rw [tip_parse_events_from_html, List.mem_filterMap] at he
    obtain ⟨b, -, hb⟩ := he
    obtain ⟨h1, -, -, h4⟩ := tip_parse_box_some b e hb
    exact ⟨h1, h4⟩
  · intro b h1 h2
    cases hb : tip_parse_box b with
    | none => rfl
    | some e =>
      obtain ⟨-, ha, hv, hcond⟩ := tip_parse_box_some b e hb
      rw [ha, hv, h1, h2] at hcond
      cases hcond

/-- Witness for C10: a concrete parsed event from a box with a venue has
a non-empty title and a truthy venue. -/
theorem tip_requires_location_witness :
    ({ title := "T", category := none, venue := some "V", address := none,
       date := none, url := none } : TipEvent).title ≠ ""
    ∧ (pyTruthyOpt ({ title := "T", category := none, venue := some "V",
                      address := none, date := none,
                      url := none } : TipEvent).address ||
       pyTruthyOpt ({ title := "T", category := none, venue := some "V",
                      address := none, date := none,
                      url := none } : TipEvent).venue) = true :=
  (tip_requires_location
      [{ title := some "T", link := none, category := none, address := none,
         venue := some "V", dates := [] }]).1 _ (by decide)

/-- C3 (counterexample): the visitberlin adapter does not drop a listing
whose title extraction fails — the article with no heading is still
emitted, with the placeholder title "N/A". -/
theorem visitberlin_emits_placeholder_title :
    visit_scrape_events
        [{ heading := none, timeTag := none, timeRange := none,
           locTag := none, descTag := none, mainlink := none }] =
      [{ title := "N/A", date := "N/A", time := "N/A", address := "N/A",
         description := "", url := "N/A" }]
    ∧ (1 : Nat) ≠ 0 := by
  decide

/-- C3 (amended): the tip adapter emits only events with non-empty
titles, dropping boxes whose title extraction fails; the visitberlin
adapter instead emits one event per article unconditionally, substituting
the placeholder "N/A" when the heading is missing. -/
theorem raw_event_title_policy (boxes : List TipBox) (articles : List VBArticle) :
    (∀ e ∈ tip_parse_events_from_html boxes, e.title ≠ "")
    ∧ (visit_scrape_events articles).length = articles.length
    ∧ (∀ a ∈ articles, a.heading = none → (parse_article a).title = "N/A") := by
  refine ⟨?_, by simp [visit_scrape_events], ?_⟩
  · intro e he
    rw [tip_parse_events_from_html, List.mem_filterMap] at he
    obtain ⟨b, -, hb⟩ := he
    exact (tip_parse_box_some b e hb).1
  · intro a _ hh
    unfold parse_article
    rw [hh]
    rfl

/-- Witness for C3 (amended) at one concrete box and one concrete
heading-less article. -/
theorem raw_event_title_policy_witness :
    ({ title := "T", category := none, venue := some "V", address := none,
       date := none, url := none } : TipEvent).title ≠ ""
    ∧ (parse_article { heading := none, timeTag := none, timeRange := none,
                       locTag := none, descTag := none,
                       mainlink := none }).title = "N/A" :=
  ⟨(raw_event_title_policy
      [{ title := some "T", link := none, category := none, address := none,
         venue := some "V", dates := [] }] []).1 _ (by decide),
   (raw_event_title_policy []
      [{ heading := none, timeTag := none, timeRange := none,
         locTag := none, descTag := none, mainlink := none }]).2.2 _
      (by decide) rfl⟩

/-- C1 (amended): the visitberlin artifact (and likewise the tip and
gratis artifacts, which share the same `dropna(subset=["lat", "lon"])`
step) contains only rows with both coordinates present; the RA adapter
instead writes one CSV row for every input event — a record whose
geocoding yielded no result is not excluded but written with empty-string
coordinate cells. -/
theorem artifact_coordinate_policy (resolve : Geocoder) (articles : List VBArticle)
    (cache : RACache) (events : List RAEventData) (h : events ≠ []) :
    (∀ r ∈ run_visitberlin_scraper resolve articles, r.lat.isSome ∧ r.lon.isSome)
    ∧ ∃ rows, save_events_to_csv resolve cache events = some rows
        ∧ rows.length = events.length := by
  constructor
  · intro r hr
    unfold run_visitberlin_scraper at hr
    rw [List.mem_filter] at hr
    have h2 := hr.2
    simp only [Bool.and_eq_true] at h2
    exact ⟨h2.1, h2.2⟩
  · have hne : events.isEmpty = false := by
      cases events with
      | nil => exact absurd rfl h
      | cons e es => rfl
    refine ⟨events.map (ra_csv_row (pre_geocode resolve cache
      ((events.map (fun e => (e.venue.name, e.venue.address.getD ""))).dedup))), ?_, by simp⟩
    unfold save_events_to_csv
    rw [hne]
    rfl

/-- Witness for C1 (amended) at one concrete article and one concrete RA
event. -/
theorem artifact_coordinate_policy_witness :
    (∀ r ∈ run_visitberlin_scraper (fun _ => some ⟨52, 13⟩)
        [{ heading := some "H", timeTag := none, timeRange := none,
           locTag := none, descTag := none, mainlink := none }],
      r.lat.isSome ∧ r.lon.isSome)
    ∧ ∃ rows, save_events_to_csv (fun _ => some ⟨52, 13⟩) []
          [{ title := "Night", date := "2025-01-01", startTime := "23:00",
             endTime := "06:00", artists := [],
             venue := { name := "Nowhere Club", address := none },
             contentUrl := "/events/1", attending := 0 }] = some rows
        ∧ rows.length =
            [({ title := "Night", date := "2025-01-01", startTime := "23:00",
                endTime := "06:00", artists := [],
                venue := { name := "Nowhere Club", address := none },
                contentUrl := "/events/1",
                attending := 0 } : RAEventData)].length :=
  artifact_coordinate_policy (fun _ => some ⟨52, 13⟩)
    [{ heading := some "H", timeTag := none, timeRange := none,
       locTag := none, descTag := none, mainlink := none }] []
    [{ title := "Night", date := "2025-01-01", startTime := "23:00",
       endTime := "06:00", artists := [],
       venue := { name := "Nowhere Club", address := none },
       contentUrl := "/events/1", attending := 0 }] (by decide)

/-! ## Gratis adapter: detail pages (scrapeGratisInBerlinParallel.py) -/

/-- The `EventDetail` dataclass. -/
structure EventDetail where
  title : String
  url : String
  address : Option String
  description : Option String
  detailed_date : Option String
  success : Bool
  error : Option String
deriving DecidableEq, Repr

/-- Outcome of `requests.get` + soup parsing for one detail page: either a
raised exception, or a page with the optional stripped texts of its
`mapTipp`, `overview-text` and `dateTipp` divs. -/
inductive DetailFetch where
  | exn (msg : String)
  | page (mapTipp : Option String) (overviewText : Option String)
      (dateTipp : Option String)
deriving DecidableEq, Repr

/-- A `(title, url)` pair collected from the overview page. -/
structure EventUrl where
  title : String
  url : String
deriving DecidableEq, Repr

/-- Embeds `GratisBerlinScraper._scrape_event_detail`: an exception yields
a failure record; the address is the stripped text before the first "-"
of the `mapTipp` div, and the record succeeds only when that address text
is truthy (present and non-empty). -/
def scrape_event_detail (fetch : String → DetailFetch) (event_data : EventUrl) :
    EventDetail :=
  match fetch event_data.url with
  | .exn msg =>
    { title := event_data.title, url := event_data.url, address := none,
      description := none, detailed_date := none, success := false,
      error := some msg }
  | .page mapTipp overviewText dateTipp =>
    let address_text := mapTipp.map (fun s => py_strip (py_split_head s '-'))
    let description := overviewText.map (fun s => py_take s 500)
    let detailed_date := dateTipp
    match address_text with
    | some a =>
      if a ≠ "" then
        { title := event_data.title, url := event_data.url, address := some a,
          description := description, detailed_date := detailed_date,
          success := true, error := none }
      else
        { title := event_data.title, url := event_data.url, address := none,
          description := none, detailed_date := none, success := false,
          error := none }
    | none =>
      { title := event_data.title, url := event_data.url, address := none,
        description := none, detailed_date := none, success := false,
        error := none }

/-- An overview `h2.overviewcontentheading` item: its `a.singletip` link,
when present, gives the title text and the href. -/
structure GratisOverviewItem where
  link : Option EventUrl
deriving DecidableEq, Repr

/-- Embeds the result-collection loop of
`GratisBerlinScraper.scrape_events`: only successful detail records are
appended. Completion order of the thread pool is nondeterministic and the
claims are order-independent, so the pool is modelled by evaluating the
details in submission order. -/
def gratis_collect (details : List EventDetail) : List EventDetail :=
  match details with
  | [] => []
  | r :: rs => if r.success then r :: gratis_collect rs else gratis_collect rs

/-- Embeds `GratisBerlinScraper.scrape_events`: collect the `(title, url)`
pairs from the overview items that have a link, fetch every detail page,
and keep the successful records. -/
def gratis_scrape_events (fetch : String → DetailFetch)
    (items : List GratisOverviewItem) : List EventDetail :=
  let event_urls := items.filterMap (·.link)
  gratis_collect (event_urls.map (scrape_event_detail fetch))

/-- Collecting results keeps exactly the successful ones. -/
theorem gratis_collect_eq_filter (details : List EventDetail) :
    gratis_collect details = details.filter (·.success) := by
  induction details with
  | nil => rfl
  | cons r rs ih =>
    unfold gratis_collect
    rw [List.filter_cons]
    cases hr : r.success with
    | true => simp [hr, ih]
    | false => simp [hr, ih]

/-- Successful and failing detail records partition the detail list. -/
theorem countP_success_split (l : List EventDetail) :
    l.countP (·.success) + l.countP (fun r => !r.success) = l.length := by
  induction l with
  | nil => rfl
  | cons r rs ih =>
    cases hr : r.success <;> simp [List.countP_cons, hr] <;> omega

/-- C7: a failing detail fetch excludes only its own event: the adapter
returns exactly the successful records of all detail fetches, and with 5
events of which exactly 2 fail, exactly the 3 successful records are
returned, not zero and not an aborted run. -/
theorem gratis_partial_failure_tolerance (fetch : String → DetailFetch)
    (items : List GratisOverviewItem)
    (h5 : (items.filterMap (·.link)).length = 5)
    (h2 : ((items.filterMap (·.link)).map (scrape_event_detail fetch)).countP
        (fun r => !r.success) = 2) :
    gratis_scrape_events fetch items =
      ((items.filterMap (·.link)).map (scrape_event_detail fetch)).filter (·.success)
    ∧ (gratis_scrape_events fetch items).length = 3
    ∧ ∀ r ∈ gratis_scrape_events fetch items, r.success = true := by
  have heq : gratis_scrape_events fetch items =
      ((items.filterMap (·.link)).map (scrape_event_detail fetch)).filter (·.success) :=
    gratis_collect_eq_filter _
  refine ⟨heq, ?_, ?_⟩
  · rw [heq, ← List.countP_eq_length_filter]
    have hsum := countP_success_split
      ((items.filterMap (·.link)).map (scrape_event_detail fetch))
    have hlen : ((items.filterMap (·.link)).map (scrape_event_detail fetch)).length = 5 := by
      rw [List.length_map]
      exact h5
    omega
  · intro r hr
    rw [heq, List.mem_filter] at hr
    exact hr.2

/-- Witness for C7: five overview events of which two detail fetches
raise, yielding exactly the three successful records. -/
theorem gratis_partial_failure_tolerance_witness :
    (gratis_scrape_events
        (fun url => if url = "u1" || url = "u2" then DetailFetch.exn "boom"
          else DetailFetch.page (some "Addr 1") none none)
        [{ link := some { title := "E1", url := "u1" } },
         { link := some { title := "E2", url := "u2" } },
         { link := some { title := "E3", url := "u3" } },
         { link := some { title := "E4", url := "u4" } },
         { link := some { title := "E5", url := "u5" } }]).length = 3
    ∧ ∀ r ∈ gratis_scrape_events
        (fun url => if url = "u1" || url = "u2" then DetailFetch.exn "boom"
          else DetailFetch.page (some "Addr 1") none none)
        [{ link := some { title := "E1", url := "u1" } },
         { link := some { title := "E2", url := "u2" } },
         { link := some { title := "E3", url := "u3" } },
         { link := some { title := "E4", url := "u4" } },
         { link := some { title := "E5", url := "u5" } }], r.success = true :=
  ⟨(gratis_partial_failure_tolerance
      (fun url => if url = "u1" || url = "u2" then DetailFetch.exn "boom"
        else DetailFetch.page (some "Addr 1") none none)
      [{ link := some { title := "E1", url := "u1" } },
       { link := some { title := "E2", url := "u2" } },
       { link := some { title := "E3", url := "u3" } },
       { link := some { title := "E4", url := "u4" } },
       { link := some { title := "E5", url := "u5" } }]
      (by decide) (by decide)).2.1,
   (gratis_partial_failure_tolerance
      (fun url => if url = "u1" || url = "u2" then DetailFetch.exn "boom"
        else DetailFetch.page (some "Addr 1") none none)
      [{ link := some { title := "E1", url := "u1" } },
       { link := some { title := "E2", url := "u2" } },
       { link := some { title := "E3", url := "u3" } },
       { link := some { title := "E4", url := "u4" } },
       { link := some { title := "E5", url := "u5" } }]
      (by decide) (by decide)).2.2⟩

/-! ## Merge stage (combineMapsLegend.py) -/

/-- One parsed CSV row of a source artifact, with each candidate column's
value (`none` both when the column is absent and when the cell is NaN,
matching `pd.notna`). Coordinates are opaque stand-ins. -/
structure MergeCsvRow where
  lat : Option Int
  lon : Option Int
  venueLatitude : Option Int
  venueLongitude : Option Int
  title : Option String
  eventName : Option String
deriving DecidableEq, Repr

/-- A source's artifact: its rows plus whether the table has the
"Venue Latitude"/"Venue Longitude" columns (a table-level property that
triggers the lat/lon normalization in `load_csv_sources`). -/
structure Artifact where
  hasVenueLatLon : Bool
  rows : List MergeCsvRow
deriving DecidableEq, Repr

/-- Outcome of resolving and reading one source's CSV file. -/
inductive ReadOutcome where
  | missing
  | unreadable (msg : String)
  | ok (artifact : Artifact)
deriving DecidableEq, Repr

/-- The `CSVSource` dataclass of combineMapsLegend.py. -/
structure CSVSource where
  file_pattern : String
  name : String
  color : String
  icon : String
deriving DecidableEq, Repr

/-- A merged row: the candidate columns plus the source tag, display
color and icon added by the merge stage. -/
structure MergedRow where
  lat : Option Int
  lon : Option Int
  venueLatitude : Option Int
  venueLongitude : Option Int
  title : Option String
  eventName : Option String
  source : String
  color : String
  icon : String
deriving DecidableEq, Repr

/-- Embeds the per-source body of `load_csv_sources`: tag the rows with
source name/color/icon, copy "Venue Latitude"/"Venue Longitude" into
`lat`/`lon` when those columns exist, then drop the rows lacking either
coordinate. -/
def load_artifact (source : CSVSource) (artifact : Artifact) : List MergedRow :=
  let tagged := artifact.rows.map (fun r =>
    ({ lat := r.lat, lon := r.lon, venueLatitude := r.venueLatitude,
       venueLongitude := r.venueLongitude, title := r.title,
       eventName := r.eventName, source := source.name, color := source.color,
       icon := source.icon } : MergedRow))
  let normalized := if artifact.hasVenueLatLon then
      tagged.map (fun r => { r with lat := r.venueLatitude, lon := r.venueLongitude })
    else tagged
  normalized.filter (fun r => r.lat.isSome && r.lon.isSome)

/-- Embeds `load_csv_sources`: each source's artifact is read inside a
try/except — a missing or unreadable artifact only skips that source —
and the valid rows and the per-source count of the loaded sources are
accumulated in order. -/
def load_csv_sources (fs : String → ReadOutcome) :
    List CSVSource → List MergedRow × List (String × Nat)
  | [] => ([], [])
  | source :: rest =>
    match fs source.file_pattern with
    | .ok artifact =>
      let df_valid := load_artifact source artifact
      let restRun := load_csv_sources fs rest
      (df_valid ++ restRun.1, (source.name, df_valid.length) :: restRun.2)
    | _ => load_csv_sources fs rest

/-- Embeds `get_event_field`: the first present, non-null candidate value
wins (the row's candidate column values are passed in candidate order). -/
def get_event_field {α : Type} : List (Option α) → Option α
  | [] => none
  | v :: rest =>
    match v with
    | some x => some x
    | none => get_event_field rest

/-- Whether a source's artifact loads successfully. -/
def source_loads (fs : String → ReadOutcome) (s : CSVSource) : Bool :=
  match fs s.file_pattern with
  | .ok _ => true
  | _ => false

/-- The rows a source contributes to the merge (none when its artifact
fails to load). -/
def source_rows (fs : String → ReadOutcome) (s : CSVSource) : List MergedRow :=
  match fs s.file_pattern with
  | .ok artifact => load_artifact s artifact
  | _ => []

/-- C8: a source whose artifact is missing or unreadable is skipped and
contributes nothing, and the merge result — rows and per-source counts —
is exactly that of the sources whose artifacts loaded successfully; a
failure on one source never affects the rows or counts of the others. -/
theorem merge_skips_failed_sources (fs : String → ReadOutcome)
    (sources : List CSVSource) :
    load_csv_sources fs sources =
      load_csv_sources fs (sources.filter (source_loads fs))
    ∧ (load_csv_sources fs sources).1 = (sources.map (source_rows fs)).flatten
    ∧ (load_csv_sources fs sources).2 =
        (sources.filter (source_loads fs)).map
          (fun s => (s.name, (source_rows fs s).length)) := by
  induction sources with
  | nil => exact ⟨rfl, rfl, rfl⟩
  | cons s rest ih =>
    obtain ⟨ih1, ih2, ih3⟩ := ih
    cases hfs : fs s.file_pattern with
    | ok artifact =>
      have hl : source_loads fs s = true := by unfold source_loads; rw [hfs]
      have hr : source_rows fs s = load_artifact s artifact := by
        unfold source_rows; rw [hfs]
      refine ⟨?_, ?_, ?_⟩
      · simp only [load_csv_sources, hfs, List.filter_cons, hl, if_true]
        rw [ih1]
      · simp only [load_csv_sources, hfs, List.map_cons, List.flatten_cons]
        rw [ih2, hr]
      · simp only [load_csv_sources, hfs, List.filter_cons, hl, if_true,
          List.map_cons]
        rw [ih3, hr]
    | missing =>
      have hl : source_loads fs s = false := by unfold source_loads; rw [hfs]
      have hr : source_rows fs s = [] := by unfold source_rows; rw [hfs]
      refine ⟨?_, ?_, ?_⟩
      · simp only [load_csv_sources, hfs, List.filter_cons, hl]
        simpa using ih1
      · simp only [load_csv_sources, hfs, List.map_cons, List.flatten_cons]
        rw [ih2, hr, List.nil_append]
      · simp only [load_csv_sources, hfs, List.filter_cons, hl]
        simpa using ih3
    | unreadable msg =>
      have hl : source_loads fs s = false := by unfold source_loads; rw [hfs]
      have hr : source_rows fs s = [] := by unfold source_rows; rw [hfs]
      refine ⟨?_, ?_, ?_⟩
      · simp only [load_csv_sources, hfs, List.filter_cons, hl]
        simpa using ih1
      · simp only [load_csv_sources, hfs, List.map_cons, List.flatten_cons]
        rw [ih2, hr, List.nil_append]
      · simp only [load_csv_sources, hfs, List.filter_cons, hl]
        simpa using ih3

/-- C4: merging an artifact with columns {lat, lon, title} and one with
columns {Venue Latitude, Venue Longitude, Event name} (each row carrying
non-null values there) keeps every row, and every merged row has its
canonical `lat`/`lon` populated and its title resolved by
`get_event_field` from whichever source column was present and non-null:
`lat`/`lon`/`title` themselves for the first artifact and
`Venue Latitude`/`Venue Longitude`/`Event name` for the second. -/
theorem merge_column_reconciliation
    (sA sB : CSVSource) (aRows bRows : List MergeCsvRow)
    (hA : ∀ r ∈ aRows, r.lat.isSome ∧ r.lon.isSome ∧ r.title.isSome)
    (hB : ∀ r ∈ bRows, r.venueLatitude.isSome ∧ r.venueLongitude.isSome
      ∧ r.eventName.isSome ∧ r.title = none) :
    (load_artifact sA ⟨false, aRows⟩).length = aRows.length
    ∧ (load_artifact sB ⟨true, bRows⟩).length = bRows.length
    ∧ (∀ m ∈ load_artifact sA ⟨false, aRows⟩ ++ load_artifact sB ⟨true, bRows⟩,
        m.lat.isSome ∧ m.lon.isSome ∧ (get_event_field [m.title, m.eventName]).isSome)
    ∧ (∀ i (h1 : i < aRows.length) (h2 : i < (load_artifact sA ⟨false, aRows⟩).length),
        ((load_artifact sA ⟨false, aRows⟩).get ⟨i, h2⟩).lat = (aRows.get ⟨i, h1⟩).lat
        ∧ ((load_artifact sA ⟨false, aRows⟩).get ⟨i, h2⟩).lon = (aRows.get ⟨i, h1⟩).lon
        ∧ get_event_field [((load_artifact sA ⟨false, aRows⟩).get ⟨i, h2⟩).title,
            ((load_artifact sA ⟨false, aRows⟩).get ⟨i, h2⟩).eventName]
          = (aRows.get ⟨i, h1⟩).title)
    ∧ (∀ i (h1 : i < bRows.length) (h2 : i < (load_artifact sB ⟨true, bRows⟩).length),
        ((load_artifact sB ⟨true, bRows⟩).get ⟨i, h2⟩).lat
            = (bRows.get ⟨i, h1⟩).venueLatitude
        ∧ ((load_artifact sB ⟨true, bRows⟩).get ⟨i, h2⟩).lon
            = (bRows.get ⟨i, h1⟩).venueLongitude
        ∧ get_event_field [((load_artifact sB ⟨true, bRows⟩).get ⟨i, h2⟩).title,
            ((load_artifact sB ⟨true, bRows⟩).get ⟨i, h2⟩).eventName]
          = (bRows.get ⟨i, h1⟩).eventName) := by
  have hAeq : load_artifact sA ⟨false, aRows⟩ = aRows.map (fun r =>
      ({ lat := r.lat, lon := r.lon, venueLatitude := r.venueLatitude,
         venueLongitude := r.venueLongitude, title := r.title,
         eventName := r.eventName, source := sA.name, color := sA.color,
         icon := sA.icon } : MergedRow)) := by
    unfold load_artifact
    simp only [show (⟨false, aRows⟩ : Artifact).hasVenueLatLon = false from rfl,
      show (⟨false, aRows⟩ : Artifact).rows = aRows from rfl,
      Bool.false_eq_true, if_false]
    apply List.filter_eq_self.mpr
    intro x hx
    rw [List.mem_map] at hx
    obtain ⟨r, hr, rfl⟩ := hx
    obtain ⟨h1, h2, -⟩ := hA r hr
    simp [h1, h2]
  have hBeq : load_artifact sB ⟨true, bRows⟩ = bRows.map (fun r =>
      ({ lat := r.venueLatitude, lon := r.venueLongitude,
         venueLatitude := r.venueLatitude, venueLongitude := r.venueLongitude,
         title := r.title, eventName := r.eventName, source := sB.name,
         color := sB.color, icon := sB.icon } : MergedRow)) := by
    unfold load_artifact
    simp only [show (⟨true, bRows⟩ : Artifact).hasVenueLatLon = true from rfl,
      show (⟨true, bRows⟩ : Artifact).rows = bRows from rfl, if_true]
    rw [List.map_map]
    show (bRows.map (fun r =>
      ({ lat := r.venueLatitude, lon := r.venueLongitude,
         venueLatitude := r.venueLatitude, venueLongitude := r.venueLongitude,
         title := r.title, eventName := r.eventName, source := sB.name,
         color := sB.color, icon := sB.icon } : MergedRow))).filter
        (fun r => r.lat.isSome && r.lon.isSome) = _
    apply List.filter_eq_self.mpr
    intro x hx
    rw [List.mem_map] at hx
    obtain ⟨r, hr, rfl⟩ := hx
    obtain ⟨h1, h2, -, -⟩ := hB r hr
    simp [h1, h2]
  refine ⟨by rw [hAeq, List.length_map], by rw [hBeq, List.length_map], ?_, ?_, ?_⟩
  · intro m hm
    rw [List.mem_append] at hm
    cases hm with
    | inl hm =>
      rw [hAeq, List.mem_map] at hm
      obtain ⟨r, hr, rfl⟩ := hm
      obtain ⟨h1, h2, h3⟩ := hA r hr
      obtain ⟨t, ht⟩ := Option.isSome_iff_exists.mp h3
      refine ⟨h1, h2, ?_⟩
      show (get_event_field [r.title, r.eventName]).isSome = true
      rw [ht]
      rfl
    | inr hm =>
      rw [hBeq, List.mem_map] at hm
      obtain ⟨r, hr, rfl⟩ := hm
      obtain ⟨h1, h2, h3, h4⟩ := hB r hr
      obtain ⟨t, ht⟩ := Option.isSome_iff_exists.mp h3
      refine ⟨h1, h2, ?_⟩
      show (get_event_field [r.title, r.eventName]).isSome = true
      rw [ht, h4]
      rfl
  · intro i h1 h2
    simp only [hAeq, List.get_eq_getElem, List.getElem_map]
    obtain ⟨-, -, h3⟩ := hA (aRows.get ⟨i, h1⟩) (by
      rw [List.get_eq_getElem]
      exact List.getElem_mem h1)
    rw [List.get_eq_getElem] at h3
    obtain ⟨t, ht⟩ := Option.isSome_iff_exists.mp h3
    refine ⟨trivial, trivial, ?_⟩
    show get_event_field [aRows[i].title, aRows[i].eventName] = aRows[i].title
    rw [ht]
    rfl
  · intro i h1 h2
    simp only [hBeq, List.get_eq_getElem, List.getElem_map]
    obtain ⟨-, -, h3, h4⟩ := hB (bRows.get ⟨i, h1⟩) (by
      rw [List.get_eq_getElem]
      exact List.getElem_mem h1)
    rw [List.get_eq_getElem] at h3
    rw [List.get_eq_getElem] at h4
    obtain ⟨t, ht⟩ := Option.isSome_iff_exists.mp h3
    refine ⟨trivial, trivial, ?_⟩
    show get_event_field [bRows[i].title, bRows[i].eventName] = bRows[i].eventName
    rw [ht, h4]
    rfl

/-- Concrete first-artifact source for the C4 witness. -/
def c4_source_a : CSVSource :=
  { file_pattern := "visitberlin_events.csv", name := "visit Berlin",
    color := "purple", icon := "info-sign" }

/-- Concrete second-artifact source for the C4 witness. -/
def c4_source_b : CSVSource :=
  { file_pattern := "RA_events.csv", name := "Resident Advisor",
    color := "red", icon := "music" }

/-- Concrete row of the {lat, lon, title} artifact for the C4 witness. -/
def c4_row_a : MergeCsvRow :=
  { lat := some 52, lon := some 13, venueLatitude := none,
    venueLongitude := none, title := some "Walk", eventName := none }

/-- Concrete row of the {Venue Latitude, Venue Longitude, Event name}
artifact for the C4 witness. -/
def c4_row_b : MergeCsvRow :=
  { lat := none, lon := none, venueLatitude := some 52,
    venueLongitude := some 13, title := none, eventName := some "Rave" }

/-- Witness for C4 at one concrete row per artifact. -/
theorem merge_column_reconciliation_witness :
    (load_artifact c4_source_a ⟨false, [c4_row_a]⟩).length = 1
    ∧ (load_artifact c4_source_b ⟨true, [c4_row_b]⟩).length = 1 :=
  ⟨(merge_column_reconciliation c4_source_a c4_source_b [c4_row_a] [c4_row_b]
      (by decide) (by decide)).1,
   (merge_column_reconciliation c4_source_a c4_source_b [c4_row_a] [c4_row_b]
      (by decide) (by decide)).2.1⟩
